import Mathlib

/-!
Shallow embedding of `src/symphonic_cipher/scbe_aethermoore/axiom_grouped/langues_metric.py`.

Python floats are modelled as real numbers, `math.exp`/`math.sin`/`math.cos`/`math.sqrt`
as their Mathlib counterparts.  Fallible code returns `Option`: `from_vector` can raise
an `IndexError`, and `math.exp` raises `OverflowError` beyond the double range, modelled
by `mathExp` and the fallible compute variant `computeF` alongside the value-level
`compute`.  Fixed-size 6-vectors are modelled as functions
`Fin 6 → ℝ` (the Python code only ever builds and reads lists of length exactly 6 there);
the one place that accepts a caller-supplied list of arbitrary length (`from_vector`)
keeps the `List ℝ` type.
-/

open Real

/-- The Six Sacred Tongues: `TONGUES = ["KO", "AV", "RU", "CA", "UM", "DR"]`. -/
inductive Tongue where
  | KO | AV | RU | CA | UM | DR
deriving DecidableEq

/-- Golden ratio `PHI = (1 + math.sqrt(5)) / 2`. -/
noncomputable def PHI : ℝ := (1 + Real.sqrt 5) / 2

/-- Full circle `TAU = 2 * math.pi`. -/
noncomputable def TAU : ℝ := 2 * Real.pi

/-- Order of the tongues, mirroring the list `TONGUES`. -/
def TONGUES (l : Fin 6) : Tongue :=
  if l.val = 0 then .KO else if l.val = 1 then .AV else if l.val = 2 then .RU
  else if l.val = 3 then .CA else if l.val = 4 then .UM else .DR

/-- `TONGUE_WEIGHTS = [PHI ** k for k in range(6)]`. -/
noncomputable def TONGUE_WEIGHTS (l : Fin 6) : ℝ := PHI ^ l.val

/-- `TONGUE_PHASES = [TAU * k / 6 for k in range(6)]`. -/
noncomputable def TONGUE_PHASES (l : Fin 6) : ℝ := TAU * l.val / 6

/-- `TONGUE_FREQUENCIES = [1.0, 9/8, 5/4, 4/3, 3/2, 5/3]`. -/
noncomputable def TONGUE_FREQUENCIES (l : Fin 6) : ℝ :=
  if l.val = 0 then 1 else if l.val = 1 then 9/8 else if l.val = 2 then 5/4
  else if l.val = 3 then 4/3 else if l.val = 4 then 3/2 else 5/3

/-- `HyperspacePoint`: a point in the 6D langues hyperspace. -/
@[ext]
structure HyperspacePoint where
  time : ℝ
  intent : ℝ
  policy : ℝ
  trust : ℝ
  risk : ℝ
  entropy : ℝ


/-- The dataclass defaults `HyperspacePoint()`:
`time=0.0, intent=0.0, policy=0.0, trust=0.8, risk=0.1, entropy=0.1`. -/
noncomputable def defaultHyperspacePoint : HyperspacePoint := ⟨0, 0, 0, 0.8, 0.1, 0.1⟩

/-- `HyperspacePoint.to_vector`, returning the fields in the canonical order. -/
def HyperspacePoint.to_vector (p : HyperspacePoint) (l : Fin 6) : ℝ :=
  if l.val = 0 then p.time else if l.val = 1 then p.intent else if l.val = 2 then p.policy
  else if l.val = 3 then p.trust else if l.val = 4 then p.risk else p.entropy

/-- `HyperspacePoint.from_vector(v)`: reads `v[0] .. v[5]`.  Python list indexing raises
`IndexError` when the index is out of range; that failure is modelled by `none`.
Elements of `v` beyond index 5 are ignored, exactly as in the source. -/
def HyperspacePoint.from_vector (v : List ℝ) : Option HyperspacePoint :=
  match v[0]?, v[1]?, v[2]?, v[3]?, v[4]?, v[5]? with
  | some t, some i, some p, some tr, some r, some e => some ⟨t, i, p, tr, r, e⟩
  | _, _, _, _, _, _ => none

/-- Total conversion of a fixed-size 6-vector into a point (the always-successful core of
`from_vector` when all six indices exist). -/
def HyperspacePoint.ofFun (f : Fin 6 → ℝ) : HyperspacePoint :=
  ⟨f 0, f 1, f 2, f 3, f 4, f 5⟩

/-- `IdealState`: ideal/safe state μ for computing deviations. -/
@[ext]
structure IdealState where
  time : ℝ
  intent : ℝ
  policy : ℝ
  trust : ℝ
  risk : ℝ
  entropy : ℝ


/-- The dataclass defaults `IdealState()`:
`time=0.0, intent=0.0, policy=0.5, trust=0.9, risk=0.1, entropy=0.2`. -/
noncomputable def defaultIdealState : IdealState := ⟨0, 0, 0.5, 0.9, 0.1, 0.2⟩

/-- `IdealState.to_vector`. -/
def IdealState.to_vector (mu : IdealState) (l : Fin 6) : ℝ :=
  if l.val = 0 then mu.time else if l.val = 1 then mu.intent else if l.val = 2 then mu.policy
  else if l.val = 3 then mu.trust else if l.val = 4 then mu.risk else mu.entropy

/-- Risk level strings returned by `risk_level`, as an enumeration. -/
inductive RiskLevel where
  | LOW | MEDIUM | HIGH | CRITICAL
deriving DecidableEq

/-- Decision strings returned by `risk_level`, as an enumeration. -/
inductive Decision where
  | ALLOW | QUARANTINE | REVIEW | DENY
deriving DecidableEq

/-- `LanguesMetric.__init__` stores `beta_base`, `clamp_max` and `ideal`
(`ideal or IdealState()` resolved by the caller of this structure). -/
structure LanguesMetric where
  beta_base : ℝ
  clamp_max : ℝ
  ideal : IdealState

/-- `LanguesMetric()` with all defaults: `beta_base=1.0, clamp_max=1e6, ideal=IdealState()`. -/
noncomputable def defaultLanguesMetric : LanguesMetric := ⟨1, 1000000, defaultIdealState⟩

/-- Per-tongue growth rates derived in `__init__`:
`self.betas = [beta_base + 0.1 * math.cos(phi) for phi in TONGUE_PHASES]`. -/
noncomputable def LanguesMetric.betas (m : LanguesMetric) (l : Fin 6) : ℝ :=
  m.beta_base + 0.1 * Real.cos (TONGUE_PHASES l)

/-- `compute_deviations`: `d_l = |x_l - mu_l|` for each dimension. -/
noncomputable def LanguesMetric.compute_deviations (m : LanguesMetric) (x : HyperspacePoint)
    (l : Fin 6) : ℝ :=
  |x.to_vector l - m.ideal.to_vector l|

/-- The skip test in `compute`'s loop: `if active_tongues and tongue not in active_tongues`.
An empty Python list is falsy, so `active_tongues = []` never skips. -/
def Tongue.excludedBy (tg : Tongue) : Option (List Tongue) → Prop
  | none => False
  | some ts => ts ≠ [] ∧ tg ∉ ts

instance (tg : Tongue) : (a : Option (List Tongue)) → Decidable (tg.excludedBy a)
  | none => isFalse fun h => h
  | some ts => inferInstanceAs (Decidable (ts ≠ [] ∧ tg ∉ ts))

/-- `LanguesMetric.compute(x, t, active_tongues)`: accumulates
`w_l * exp(beta_l * (d_l + 0.1 * sin(omega_l * t + phi_l)))` over the non-skipped
dimensions and clamps the total at `clamp_max`.  This is the value-level model with the
total `Real.exp`; `LanguesMetric.computeF` below additionally models the `OverflowError`
that `math.exp` raises for arguments beyond the double range. -/
noncomputable def LanguesMetric.compute (m : LanguesMetric) (x : HyperspacePoint) (t : ℝ)
    (active_tongues : Option (List Tongue)) : ℝ :=
  min
    (∑ l : Fin 6,
      if (TONGUES l).excludedBy active_tongues then 0
      else TONGUE_WEIGHTS l *
        Real.exp (m.betas l *
          (m.compute_deviations x l +
            0.1 * Real.sin (TONGUE_FREQUENCIES l * t + TONGUE_PHASES l))))
    m.clamp_max

/-- The unclamped, unfiltered sum inside `compute` (the running total `L` when no tongue
is skipped), singled out for reasoning about the clamp. -/
noncomputable def unclampedL (m : LanguesMetric) (x : HyperspacePoint) (t : ℝ) : ℝ :=
  ∑ l : Fin 6,
    TONGUE_WEIGHTS l *
      Real.exp (m.betas l *
        (m.compute_deviations x l +
          0.1 * Real.sin (TONGUE_FREQUENCIES l * t + TONGUE_PHASES l)))

/-- `LanguesMetric.compute_gradient(x, t)`: the list of the six values
`w_l * beta_l * exp(beta_l * shifted_d) * sign`, `sign = 1.0 if x_l >= mu_l else -1.0`. -/
noncomputable def LanguesMetric.compute_gradient (m : LanguesMetric) (x : HyperspacePoint)
    (t : ℝ) : List ℝ :=
  List.ofFn fun l : Fin 6 =>
    TONGUE_WEIGHTS l * m.betas l *
      Real.exp (m.betas l *
        (m.compute_deviations x l +
          0.1 * Real.sin (TONGUE_FREQUENCIES l * t + TONGUE_PHASES l))) *
      (if x.to_vector l ≥ m.ideal.to_vector l then 1 else -1)

/-- `L_base = sum(TONGUE_WEIGHTS)` used inside `risk_level`. -/
noncomputable def L_base : ℝ := ∑ l : Fin 6, TONGUE_WEIGHTS l

/-- `LanguesMetric.risk_level(L)`: four-band threshold classification.  The Python method
never reads `self` (its `L_base` comes from the global weight table). -/
noncomputable def LanguesMetric.risk_level (_m : LanguesMetric) (L : ℝ) :
    RiskLevel × Decision :=
  if L < L_base * 1.5 then (.LOW, .ALLOW)
  else if L < L_base * 3.0 then (.MEDIUM, .QUARANTINE)
  else if L < L_base * 10.0 then (.HIGH, .REVIEW)
  else (.CRITICAL, .DENY)

/-- `langues_distance(x1, x2, metric)`: `sqrt(sum(w_l * (x1_l - x2_l) ** 2))`.  The Python
body binds `metric = metric or LanguesMetric()` and then never uses it (the weights come
from the global table), so the parameter is carried but unused here as well. -/
noncomputable def langues_distance (x1 x2 : HyperspacePoint)
    (_metric : Option LanguesMetric) : ℝ :=
  Real.sqrt (∑ l : Fin 6, TONGUE_WEIGHTS l * (x1.to_vector l - x2.to_vector l) ^ 2)

/-- The base point of `verify_monotonicity`:
`HyperspacePoint(time=0, intent=0, policy=0.5, trust=0.9, risk=0.1, entropy=0.2)`,
which coincides with the default ideal state. -/
noncomputable def safePoint : HyperspacePoint := ⟨0, 0, 0.5, 0.9, 0.1, 0.2⟩

/-- The "attack" demo point:
`HyperspacePoint(time=0, intent=1.5, policy=0.1, trust=0.2, risk=0.9, entropy=0.8)`. -/
noncomputable def attackPoint : HyperspacePoint := ⟨0, 1.5, 0.1, 0.2, 0.9, 0.8⟩

/-- One loop step of `verify_monotonicity`: `vec = ideal.to_vector(); vec[dim] += delta;
HyperspacePoint.from_vector(vec)`. -/
noncomputable def bump (p : HyperspacePoint) (dim : Fin 6) (delta : ℝ) : HyperspacePoint :=
  HyperspacePoint.ofFun (Function.update p.to_vector dim (p.to_vector dim + delta))

/-- `verify_monotonicity()` returns `True` iff for every dimension the chained comparisons
of the loop all strictly increase: starting from `L_prev = compute(ideal)` and comparing
against the bumped points for `delta in [0.1, 0.2, 0.3, 0.5, 1.0]` (each bump is applied
to a fresh copy of the ideal vector, as in the source). -/
noncomputable def verify_monotonicity : Prop :=
  ∀ dim : Fin 6,
    defaultLanguesMetric.compute safePoint 0 none
        < defaultLanguesMetric.compute (bump safePoint dim 0.1) 0 none ∧
    defaultLanguesMetric.compute (bump safePoint dim 0.1) 0 none
        < defaultLanguesMetric.compute (bump safePoint dim 0.2) 0 none ∧
    defaultLanguesMetric.compute (bump safePoint dim 0.2) 0 none
        < defaultLanguesMetric.compute (bump safePoint dim 0.3) 0 none ∧
    defaultLanguesMetric.compute (bump safePoint dim 0.3) 0 none
        < defaultLanguesMetric.compute (bump safePoint dim 0.5) 0 none ∧
    defaultLanguesMetric.compute (bump safePoint dim 0.5) 0 none
        < defaultLanguesMetric.compute (bump safePoint dim 1.0) 0 none

/-- Spec-side restatement of C1 (built from the claim's words, to be compared with
`LanguesMetric.compute`): the sum over the non-excluded dimensions of
`TONGUE_WEIGHTS[l] * exp(betas[l] * (|x[l] - ideal[l]| + 0.1 * sin(freq[l]*t + phase[l])))`,
clamped above by `clamp_max`. -/
noncomputable def computeSpec (m : LanguesMetric) (x : HyperspacePoint) (t : ℝ)
    (active_tongues : Option (List Tongue)) : ℝ :=
  min
    (∑ l ∈ Finset.univ.filter (fun l : Fin 6 => ¬ (TONGUES l).excludedBy active_tongues),
      TONGUE_WEIGHTS l *
        Real.exp ((m.beta_base + 0.1 * Real.cos (TONGUE_PHASES l)) *
          (|x.to_vector l - m.ideal.to_vector l| +
            0.1 * Real.sin (TONGUE_FREQUENCIES l * t + TONGUE_PHASES l))))
    m.clamp_max

/-- Spec-side restatement of C5's per-entry gradient formula (built from the claim's
words): `weight[l] * beta[l] * exp(beta[l] * shifted_d_l) * sign(x[l] - ideal[l])`,
with sign `+1` when `x[l] >= ideal[l]` and `-1` otherwise. -/
noncomputable def gradientSpec (m : LanguesMetric) (x : HyperspacePoint) (t : ℝ)
    (l : Fin 6) : ℝ :=
  TONGUE_WEIGHTS l * m.betas l *
    Real.exp (m.betas l *
      (|x.to_vector l - m.ideal.to_vector l| +
        0.1 * Real.sin (TONGUE_FREQUENCIES l * t + TONGUE_PHASES l))) *
    (if m.ideal.to_vector l ≤ x.to_vector l then 1 else -1)

/-- Largest argument for which CPython's `math.exp` returns a finite double (the natural
log of the largest double, about 709.7827); for any larger finite argument `math.exp`
raises `OverflowError`. -/
noncomputable def MATH_EXP_MAX_ARG : ℝ := 709.782712893384

/-- `math.exp` as the Python runtime actually behaves on finite inputs: the value is the
real exponential, but arguments beyond the double range raise `OverflowError`,
modelled by `none`. -/
noncomputable def mathExp (x : ℝ) : Option ℝ :=
  if x ≤ MATH_EXP_MAX_ARG then some (Real.exp x) else none

/-- `LanguesMetric.compute` with the error path of `math.exp` kept: the same loop as
`compute` (skip test, accumulation, final clamp), but each `math.exp` call goes through
`mathExp`, so an overflowing exponent argument makes the whole call fail (`none`) before
the clamp line is ever reached, exactly as the Python raises. -/
noncomputable def LanguesMetric.computeF (m : LanguesMetric) (x : HyperspacePoint) (t : ℝ)
    (active_tongues : Option (List Tongue)) : Option ℝ :=
  Option.map (fun L => min L m.clamp_max)
    (([0, 1, 2, 3, 4, 5] : List (Fin 6)).foldlM
      (fun L l =>
        if (TONGUES l).excludedBy active_tongues then some L
        else
          (mathExp (m.betas l *
            (m.compute_deviations x l +
              0.1 * Real.sin (TONGUE_FREQUENCIES l * t + TONGUE_PHASES l)))).map
            (fun e => L + TONGUE_WEIGHTS l * e))
      0)

/-- A plain input that overflows: `HyperspacePoint(time=700)` with every other coordinate
at its ideal value.  Its dimension-0 exponent argument is `1.1 * 700 = 770`, beyond
`math.exp`'s domain. -/
noncomputable def overflowPoint : HyperspacePoint := ⟨700, 0, 0.5, 0.9, 0.1, 0.2⟩

/-! ### Numeric groundwork: square roots, the golden ratio, and exponential bounds -/

lemma sqrt5_lb : (2.236 : ℝ) < Real.sqrt 5 := by
  rw [show (2.236 : ℝ) = Real.sqrt (2.236 ^ 2) from (Real.sqrt_sq (by norm_num)).symm]
  exact Real.sqrt_lt_sqrt (by norm_num) (by norm_num)

lemma sqrt5_ub : Real.sqrt 5 < 2.23607 := (Real.sqrt_lt' (by norm_num)).mpr (by norm_num)

lemma sqrt3_lb : (1.732 : ℝ) < Real.sqrt 3 := by
  rw [show (1.732 : ℝ) = Real.sqrt (1.732 ^ 2) from (Real.sqrt_sq (by norm_num)).symm]
  exact Real.sqrt_lt_sqrt (by norm_num) (by norm_num)

lemma sqrt3_ub : Real.sqrt 3 < 1.7321 := (Real.sqrt_lt' (by norm_num)).mpr (by norm_num)

lemma phi_lb : (1.618 : ℝ) < PHI := by
  have := sqrt5_lb; unfold PHI; linarith

lemma phi_ub : PHI < 1.61804 := by
  have := sqrt5_ub; unfold PHI; linarith

lemma phi_pos : (0 : ℝ) < PHI := lt_trans (by norm_num) phi_lb

lemma phi_sq : PHI ^ 2 = PHI + 1 := by
  have h5 : Real.sqrt 5 ^ 2 = 5 := Real.sq_sqrt (by norm_num)
  unfold PHI; nlinarith [h5]

lemma phi_cube : PHI ^ 3 = 2 * PHI + 1 := by nlinarith [phi_sq]

lemma phi_p4 : PHI ^ 4 = 3 * PHI + 2 := by nlinarith [phi_sq, phi_cube]

lemma phi_p5 : PHI ^ 5 = 5 * PHI + 3 := by nlinarith [phi_sq, phi_cube, phi_p4]

lemma exp_ge_sq (x : ℝ) (hx : 0 ≤ x) : (1 + x / 2) ^ 2 ≤ Real.exp x := by
  have h1 : 1 + x / 2 ≤ Real.exp (x / 2) := by
    have := Real.add_one_le_exp (x / 2); linarith
  have h0 : (0 : ℝ) ≤ 1 + x / 2 := by linarith
  calc (1 + x / 2) ^ 2 ≤ Real.exp (x / 2) ^ 2 := pow_le_pow_left₀ h0 h1 2
    _ = Real.exp x := by rw [sq, ← Real.exp_add]; ring_nf

lemma exp_ge_pow16 (x : ℝ) (hx : 0 ≤ x) : (1 + x / 16) ^ 16 ≤ Real.exp x := by
  have h1 : 1 + x / 16 ≤ Real.exp (x / 16) := by
    have := Real.add_one_le_exp (x / 16); linarith
  have h0 : (0 : ℝ) ≤ 1 + x / 16 := by linarith
  calc (1 + x / 16) ^ 16 ≤ Real.exp (x / 16) ^ 16 := pow_le_pow_left₀ h0 h1 16
    _ = Real.exp x := by
        rw [← Real.exp_nat_mul]; norm_num; ring

lemma exp_le_one_div (x : ℝ) (_hx0 : 0 ≤ x) (hx1 : x < 1) : Real.exp x ≤ 1 / (1 - x) := by
  have h := Real.add_one_le_exp (-x)
  rw [Real.exp_neg] at h
  have hp : 0 < Real.exp x := Real.exp_pos x
  rw [le_div_iff₀ (by linarith : (0 : ℝ) < 1 - x)]
  have h2 : 1 - x ≤ (Real.exp x)⁻¹ := by linarith
  calc Real.exp x * (1 - x) ≤ Real.exp x * (Real.exp x)⁻¹ :=
        mul_le_mul_of_nonneg_left h2 (le_of_lt hp)
    _ = 1 := mul_inv_cancel₀ (ne_of_gt hp)

lemma exp_le_q4 (x : ℝ) (hx0 : 0 ≤ x) (hx4 : x < 4) :
    Real.exp x ≤ (1 / (1 - x / 4)) ^ 4 := by
  have h1 : Real.exp (x / 4) ≤ 1 / (1 - x / 4) :=
    exp_le_one_div (x / 4) (by linarith) (by linarith)
  have h0 : (0 : ℝ) ≤ Real.exp (x / 4) := le_of_lt (Real.exp_pos _)
  calc Real.exp x = Real.exp (x / 4) ^ 4 := by rw [← Real.exp_nat_mul]; norm_num; ring
    _ ≤ (1 / (1 - x / 4)) ^ 4 := pow_le_pow_left₀ h0 h1 4

/-! ### Evaluating the constant tables at each of the six indices -/

lemma W0 : TONGUE_WEIGHTS 0 = 1 := pow_zero PHI

lemma W1 : TONGUE_WEIGHTS 1 = PHI := pow_one PHI

lemma W2 : TONGUE_WEIGHTS 2 = PHI ^ 2 := rfl

lemma W3 : TONGUE_WEIGHTS 3 = PHI ^ 3 := rfl

lemma W4 : TONGUE_WEIGHTS 4 = PHI ^ 4 := rfl

lemma W5 : TONGUE_WEIGHTS 5 = PHI ^ 5 := rfl

lemma phase_0 : TONGUE_PHASES 0 = 0 := by
  show TAU * ((0 : ℕ) : ℝ) / 6 = 0
  norm_num

lemma phase_1 : TONGUE_PHASES 1 = Real.pi / 3 := by
  show TAU * ((1 : ℕ) : ℝ) / 6 = Real.pi / 3
  unfold TAU; push_cast; ring

lemma phase_2 : TONGUE_PHASES 2 = 2 * Real.pi / 3 := by
  show TAU * ((2 : ℕ) : ℝ) / 6 = 2 * Real.pi / 3
  unfold TAU; push_cast; ring

lemma phase_3 : TONGUE_PHASES 3 = Real.pi := by
  show TAU * ((3 : ℕ) : ℝ) / 6 = Real.pi
  unfold TAU; push_cast; ring

lemma phase_4 : TONGUE_PHASES 4 = 4 * Real.pi / 3 := by
  show TAU * ((4 : ℕ) : ℝ) / 6 = 4 * Real.pi / 3
  unfold TAU; push_cast; ring

lemma phase_5 : TONGUE_PHASES 5 = 5 * Real.pi / 3 := by
  show TAU * ((5 : ℕ) : ℝ) / 6 = 5 * Real.pi / 3
  unfold TAU; push_cast; ring

lemma sin_phase_0 : Real.sin (TONGUE_PHASES 0) = 0 := by rw [phase_0, Real.sin_zero]

lemma sin_phase_1 : Real.sin (TONGUE_PHASES 1) = Real.sqrt 3 / 2 := by
  rw [phase_1, Real.sin_pi_div_three]

lemma sin_phase_2 : Real.sin (TONGUE_PHASES 2) = Real.sqrt 3 / 2 := by
  rw [phase_2, show 2 * Real.pi / 3 = Real.pi - Real.pi / 3 by ring, Real.sin_pi_sub,
    Real.sin_pi_div_three]

lemma sin_phase_3 : Real.sin (TONGUE_PHASES 3) = 0 := by rw [phase_3, Real.sin_pi]

lemma sin_phase_4 : Real.sin (TONGUE_PHASES 4) = -(Real.sqrt 3 / 2) := by
  rw [phase_4, show 4 * Real.pi / 3 = Real.pi - -(Real.pi / 3) by ring, Real.sin_pi_sub,
    Real.sin_neg, Real.sin_pi_div_three]

lemma sin_phase_5 : Real.sin (TONGUE_PHASES 5) = -(Real.sqrt 3 / 2) := by
  rw [phase_5, show 5 * Real.pi / 3 = Real.pi - -(2 * Real.pi / 3) by ring, Real.sin_pi_sub,
    Real.sin_neg, show 2 * Real.pi / 3 = Real.pi - Real.pi / 3 by ring, Real.sin_pi_sub,
    Real.sin_pi_div_three]

lemma cos_phase_0 : Real.cos (TONGUE_PHASES 0) = 1 := by rw [phase_0, Real.cos_zero]

lemma cos_phase_1 : Real.cos (TONGUE_PHASES 1) = 1 / 2 := by
  rw [phase_1, Real.cos_pi_div_three]

lemma cos_phase_2 : Real.cos (TONGUE_PHASES 2) = -(1 / 2) := by
  rw [phase_2, show 2 * Real.pi / 3 = Real.pi - Real.pi / 3 by ring, Real.cos_pi_sub,
    Real.cos_pi_div_three]

lemma cos_phase_3 : Real.cos (TONGUE_PHASES 3) = -1 := by rw [phase_3, Real.cos_pi]

lemma cos_phase_4 : Real.cos (TONGUE_PHASES 4) = -(1 / 2) := by
  rw [phase_4, show 4 * Real.pi / 3 = Real.pi - -(Real.pi / 3) by ring, Real.cos_pi_sub,
    Real.cos_neg, Real.cos_pi_div_three]

lemma cos_phase_5 : Real.cos (TONGUE_PHASES 5) = 1 / 2 := by
  rw [phase_5, show 5 * Real.pi / 3 = Real.pi - -(2 * Real.pi / 3) by ring, Real.cos_pi_sub,
    Real.cos_neg, show 2 * Real.pi / 3 = Real.pi - Real.pi / 3 by ring, Real.cos_pi_sub,
    Real.cos_pi_div_three]
  norm_num

lemma betas_d0 : defaultLanguesMetric.betas 0 = 1.1 := by
  show (1 : ℝ) + 0.1 * Real.cos (TONGUE_PHASES 0) = 1.1
  rw [cos_phase_0]; norm_num

lemma betas_d1 : defaultLanguesMetric.betas 1 = 1.05 := by
  show (1 : ℝ) + 0.1 * Real.cos (TONGUE_PHASES 1) = 1.05
  rw [cos_phase_1]; norm_num

lemma betas_d2 : defaultLanguesMetric.betas 2 = 0.95 := by
  show (1 : ℝ) + 0.1 * Real.cos (TONGUE_PHASES 2) = 0.95
  rw [cos_phase_2]; norm_num

lemma betas_d3 : defaultLanguesMetric.betas 3 = 0.9 := by
  show (1 : ℝ) + 0.1 * Real.cos (TONGUE_PHASES 3) = 0.9
  rw [cos_phase_3]; norm_num

lemma betas_d4 : defaultLanguesMetric.betas 4 = 0.95 := by
  show (1 : ℝ) + 0.1 * Real.cos (TONGUE_PHASES 4) = 0.95
  rw [cos_phase_4]; norm_num

lemma betas_d5 : defaultLanguesMetric.betas 5 = 1.05 := by
  show (1 : ℝ) + 0.1 * Real.cos (TONGUE_PHASES 5) = 1.05
  rw [cos_phase_5]; norm_num

/-! ### Unfolding `compute` with no tongue filter, and at the default metric -/

lemma compute_none_eq (m : LanguesMetric) (x : HyperspacePoint) (t : ℝ) :
    m.compute x t none = min (unclampedL m x t) m.clamp_max := by
  rfl

lemma compute_some_empty_eq (m : LanguesMetric) (x : HyperspacePoint) (t : ℝ) :
    m.compute x t (some []) = min (unclampedL m x t) m.clamp_max := by
  rfl

lemma unclampedL_default_t0 (x : HyperspacePoint) :
    unclampedL defaultLanguesMetric x 0 =
      Real.exp (1.1 * defaultLanguesMetric.compute_deviations x 0)
      + PHI * Real.exp (1.05 *
          (defaultLanguesMetric.compute_deviations x 1 + 0.1 * (Real.sqrt 3 / 2)))
      + PHI ^ 2 * Real.exp (0.95 *
          (defaultLanguesMetric.compute_deviations x 2 + 0.1 * (Real.sqrt 3 / 2)))
      + PHI ^ 3 * Real.exp (0.9 * defaultLanguesMetric.compute_deviations x 3)
      + PHI ^ 4 * Real.exp (0.95 *
          (defaultLanguesMetric.compute_deviations x 4 + 0.1 * -(Real.sqrt 3 / 2)))
      + PHI ^ 5 * Real.exp (1.05 *
          (defaultLanguesMetric.compute_deviations x 5 + 0.1 * -(Real.sqrt 3 / 2))) := by
  unfold unclampedL
  rw [Fin.sum_univ_six, W0, W1, W2, W3, W4, W5]
  simp only [mul_zero, zero_add]
  rw [sin_phase_0, sin_phase_1, sin_phase_2, sin_phase_3, sin_phase_4, sin_phase_5,
    betas_d0, betas_d1, betas_d2, betas_d3, betas_d4, betas_d5]
  norm_num

/-! ### Generic bounds for a single weighted exponential term -/

lemma term_le_of_nonpos (w wub a : ℝ) (hw : 0 ≤ w) (hwub : w ≤ wub) (ha : a ≤ 0) :
    w * Real.exp a ≤ wub := by
  calc w * Real.exp a ≤ wub * 1 :=
        mul_le_mul hwub (Real.exp_le_one_iff.mpr ha) (le_of_lt (Real.exp_pos a))
          (le_trans hw hwub)
    _ = wub := mul_one wub

lemma term_le_small (w wub a q : ℝ) (hw : 0 ≤ w) (hwub : w ≤ wub) (ha : a ≤ q)
    (hq0 : 0 ≤ q) (hq1 : q < 1) : w * Real.exp a ≤ wub * (1 / (1 - q)) :=
  mul_le_mul hwub (le_trans (Real.exp_le_exp.mpr ha) (exp_le_one_div q hq0 hq1))
    (le_of_lt (Real.exp_pos a)) (le_trans hw hwub)

lemma term_le_q4 (w wub a q : ℝ) (hw : 0 ≤ w) (hwub : w ≤ wub) (ha : a ≤ q)
    (hq0 : 0 ≤ q) (hq4 : q < 4) : w * Real.exp a ≤ wub * (1 / (1 - q / 4)) ^ 4 :=
  mul_le_mul hwub (le_trans (Real.exp_le_exp.mpr ha) (exp_le_q4 q hq0 hq4))
    (le_of_lt (Real.exp_pos a)) (le_trans hw hwub)

lemma term_ge_sq (w wlb a q : ℝ) (h0w : 0 ≤ wlb) (hwlb : wlb ≤ w) (hq : q ≤ a)
    (hq0 : 0 ≤ q) : wlb * (1 + q / 2) ^ 2 ≤ w * Real.exp a :=
  mul_le_mul hwlb (le_trans (exp_ge_sq q hq0) (Real.exp_le_exp.mpr hq))
    (by positivity) (le_trans h0w hwlb)

lemma term_ge_pow16 (w wlb a q : ℝ) (h0w : 0 ≤ wlb) (hwlb : wlb ≤ w) (hq : q ≤ a)
    (hq0 : 0 ≤ q) : wlb * (1 + q / 16) ^ 16 ≤ w * Real.exp a :=
  mul_le_mul hwlb (le_trans (exp_ge_pow16 q hq0) (Real.exp_le_exp.mpr hq))
    (by positivity) (le_trans h0w hwlb)

lemma phi2_lb : (2.618 : ℝ) ≤ PHI ^ 2 := by rw [phi_sq]; linarith [phi_lb]

lemma phi2_ub : PHI ^ 2 ≤ 2.61804 := by rw [phi_sq]; linarith [phi_ub]

lemma phi3_lb : (4.236 : ℝ) ≤ PHI ^ 3 := by rw [phi_cube]; linarith [phi_lb]

lemma phi3_ub : PHI ^ 3 ≤ 4.23608 := by rw [phi_cube]; linarith [phi_ub]

lemma phi4_lb : (6.854 : ℝ) ≤ PHI ^ 4 := by rw [phi_p4]; linarith [phi_lb]

lemma phi4_ub : PHI ^ 4 ≤ 6.85412 := by rw [phi_p4]; linarith [phi_ub]

lemma phi5_lb : (11.09 : ℝ) ≤ PHI ^ 5 := by rw [phi_p5]; linarith [phi_lb]

lemma phi5_ub : PHI ^ 5 ≤ 11.0902 := by rw [phi_p5]; linarith [phi_ub]

lemma L_base_eq : L_base = 12 * PHI + 8 := by
  unfold L_base
  rw [Fin.sum_univ_six, W0, W1, W2, W3, W4, W5, phi_sq, phi_cube, phi_p4, phi_p5]
  ring

lemma L_base_lb : (27.416 : ℝ) ≤ L_base := by rw [L_base_eq]; linarith [phi_lb]

lemma L_base_ub : L_base ≤ 27.41648 := by rw [L_base_eq]; linarith [phi_ub]

/-! ### Deviations of the concrete demo points from the default ideal state -/

lemma dev_safe (l : Fin 6) : defaultLanguesMetric.compute_deviations safePoint l = 0 := by
  fin_cases l
  · show |(0 : ℝ) - 0| = 0; norm_num
  · show |(0 : ℝ) - 0| = 0; norm_num
  · show |(0.5 : ℝ) - 0.5| = 0; norm_num
  · show |(0.9 : ℝ) - 0.9| = 0; norm_num
  · show |(0.1 : ℝ) - 0.1| = 0; norm_num
  · show |(0.2 : ℝ) - 0.2| = 0; norm_num

lemma dev_attack_0 : defaultLanguesMetric.compute_deviations attackPoint 0 = 0 := by
  show |(0 : ℝ) - 0| = 0; norm_num

lemma dev_attack_1 : defaultLanguesMetric.compute_deviations attackPoint 1 = 1.5 := by
  show |(1.5 : ℝ) - 0| = 1.5
  rw [sub_zero]; exact abs_of_nonneg (by norm_num)

lemma dev_attack_2 : defaultLanguesMetric.compute_deviations attackPoint 2 = 0.4 := by
  show |(0.1 : ℝ) - 0.5| = 0.4
  rw [show (0.1 : ℝ) - 0.5 = -0.4 by norm_num, abs_neg]
  exact abs_of_nonneg (by norm_num)

lemma dev_attack_3 : defaultLanguesMetric.compute_deviations attackPoint 3 = 0.7 := by
  show |(0.2 : ℝ) - 0.9| = 0.7
  rw [show (0.2 : ℝ) - 0.9 = -0.7 by norm_num, abs_neg]
  exact abs_of_nonneg (by norm_num)

lemma dev_attack_4 : defaultLanguesMetric.compute_deviations attackPoint 4 = 0.8 := by
  show |(0.9 : ℝ) - 0.1| = 0.8
  rw [show (0.9 : ℝ) - 0.1 = 0.8 by norm_num]
  exact abs_of_nonneg (by norm_num)

lemma dev_attack_5 : defaultLanguesMetric.compute_deviations attackPoint 5 = 0.6 := by
  show |(0.8 : ℝ) - 0.2| = 0.6
  rw [show (0.8 : ℝ) - 0.2 = 0.6 by norm_num]
  exact abs_of_nonneg (by norm_num)

lemma dev_dp_0 : defaultLanguesMetric.compute_deviations defaultHyperspacePoint 0 = 0 := by
  show |(0 : ℝ) - 0| = 0; norm_num

lemma dev_dp_1 : defaultLanguesMetric.compute_deviations defaultHyperspacePoint 1 = 0 := by
  show |(0 : ℝ) - 0| = 0; norm_num

lemma dev_dp_2 : defaultLanguesMetric.compute_deviations defaultHyperspacePoint 2 = 0.5 := by
  show |(0 : ℝ) - 0.5| = 0.5
  rw [show (0 : ℝ) - 0.5 = -0.5 by norm_num, abs_neg]
  exact abs_of_nonneg (by norm_num)

lemma dev_dp_3 : defaultLanguesMetric.compute_deviations defaultHyperspacePoint 3 = 0.1 := by
  show |(0.8 : ℝ) - 0.9| = 0.1
  rw [show (0.8 : ℝ) - 0.9 = -0.1 by norm_num, abs_neg]
  exact abs_of_nonneg (by norm_num)

lemma dev_dp_4 : defaultLanguesMetric.compute_deviations defaultHyperspacePoint 4 = 0 := by
  show |(0.1 : ℝ) - 0.1| = 0; norm_num

lemma dev_dp_5 : defaultLanguesMetric.compute_deviations defaultHyperspacePoint 5 = 0.1 := by
  show |(0.1 : ℝ) - 0.2| = 0.1
  rw [show (0.1 : ℝ) - 0.2 = -0.1 by norm_num, abs_neg]
  exact abs_of_nonneg (by norm_num)

/-! ### Two-sided numeric bounds for the demo points at t = 0 -/

lemma safe_ub : unclampedL defaultLanguesMetric safePoint 0 ≤ 27.82 := by
  rw [unclampedL_default_t0, dev_safe 0, dev_safe 1, dev_safe 2, dev_safe 3,
    dev_safe 4, dev_safe 5]
  have s3n : (0 : ℝ) ≤ Real.sqrt 3 := Real.sqrt_nonneg 3
  have s3u := sqrt3_ub
  have h0 : Real.exp (1.1 * (0 : ℝ)) = 1 := by norm_num [Real.exp_zero]
  have h1 : PHI * Real.exp (1.05 * ((0 : ℝ) + 0.1 * (Real.sqrt 3 / 2)))
      ≤ 1.61804 * (1 / (1 - 0.091)) :=
    term_le_small _ _ _ _ phi_pos.le phi_ub.le (by nlinarith) (by norm_num) (by norm_num)
  have h2 : PHI ^ 2 * Real.exp (0.95 * ((0 : ℝ) + 0.1 * (Real.sqrt 3 / 2)))
      ≤ 2.61804 * (1 / (1 - 0.083)) :=
    term_le_small _ _ _ _ (pow_nonneg phi_pos.le 2) phi2_ub (by nlinarith) (by norm_num) (by norm_num)
  have h3 : PHI ^ 3 * Real.exp (0.9 * (0 : ℝ)) ≤ 4.23608 := by
    rw [show (0.9 : ℝ) * 0 = 0 by norm_num, Real.exp_zero, mul_one]; exact phi3_ub
  have h4 : PHI ^ 4 * Real.exp (0.95 * ((0 : ℝ) + 0.1 * -(Real.sqrt 3 / 2))) ≤ 6.85412 :=
    term_le_of_nonpos _ _ _ (pow_nonneg phi_pos.le 4) phi4_ub (by nlinarith)
  have h5 : PHI ^ 5 * Real.exp (1.05 * ((0 : ℝ) + 0.1 * -(Real.sqrt 3 / 2))) ≤ 11.0902 :=
    term_le_of_nonpos _ _ _ (pow_nonneg phi_pos.le 5) phi5_ub (by nlinarith)
  linarith

lemma attack_lb : (42 : ℝ) ≤ unclampedL defaultLanguesMetric attackPoint 0 := by
  rw [unclampedL_default_t0, dev_attack_0, dev_attack_1, dev_attack_2, dev_attack_3,
    dev_attack_4, dev_attack_5]
  have s3n : (0 : ℝ) ≤ Real.sqrt 3 := Real.sqrt_nonneg 3
  have s3l := sqrt3_lb
  have s3u := sqrt3_ub
  have h0 : Real.exp (1.1 * (0 : ℝ)) = 1 := by norm_num [Real.exp_zero]
  have h1 : (5.436 : ℝ) ≤ PHI * Real.exp (1.05 * ((1.5 : ℝ) + 0.1 * (Real.sqrt 3 / 2))) :=
    le_trans (show (5.436 : ℝ) ≤ 1.618 * (1 + 1.6659 / 2) ^ 2 by norm_num)
      (term_ge_sq _ 1.618 _ 1.6659 (by norm_num) phi_lb.le (by nlinarith) (by norm_num))
  have h2 : (3.96 : ℝ) ≤ PHI ^ 2 * Real.exp (0.95 * ((0.4 : ℝ) + 0.1 * (Real.sqrt 3 / 2))) :=
    le_trans (show (3.96 : ℝ) ≤ 2.618 * (1 + 0.4622 / 2) ^ 2 by norm_num)
      (term_ge_sq _ 2.618 _ 0.4622 (by norm_num) phi2_lb (by nlinarith) (by norm_num))
  have h3 : (7.32 : ℝ) ≤ PHI ^ 3 * Real.exp (0.9 * (0.7 : ℝ)) :=
    le_trans (show (7.32 : ℝ) ≤ 4.236 * (1 + 0.63 / 2) ^ 2 by norm_num)
      (term_ge_sq _ 4.236 _ 0.63 (by norm_num) phi3_lb (by norm_num) (by norm_num))
  have h4 : (12.28 : ℝ) ≤ PHI ^ 4 * Real.exp (0.95 * ((0.8 : ℝ) + 0.1 * -(Real.sqrt 3 / 2))) :=
    le_trans (show (12.28 : ℝ) ≤ 6.854 * (1 + 0.6777 / 2) ^ 2 by norm_num)
      (term_ge_sq _ 6.854 _ 0.6777 (by norm_num) phi4_lb (by nlinarith) (by norm_num))
  have h5 : (17.87 : ℝ) ≤ PHI ^ 5 * Real.exp (1.05 * ((0.6 : ℝ) + 0.1 * -(Real.sqrt 3 / 2))) :=
    le_trans (show (17.87 : ℝ) ≤ 11.09 * (1 + 0.539 / 2) ^ 2 by norm_num)
      (term_ge_sq _ 11.09 _ 0.539 (by norm_num) phi5_lb (by nlinarith) (by norm_num))
  linarith

lemma attack_ub : unclampedL defaultLanguesMetric attackPoint 0 ≤ 62 := by
  rw [unclampedL_default_t0, dev_attack_0, dev_attack_1, dev_attack_2, dev_attack_3,
    dev_attack_4, dev_attack_5]
  have s3n : (0 : ℝ) ≤ Real.sqrt 3 := Real.sqrt_nonneg 3
  have s3l := sqrt3_lb
  have s3u := sqrt3_ub
  have h0 : Real.exp (1.1 * (0 : ℝ)) = 1 := by norm_num [Real.exp_zero]
  have h1 : PHI * Real.exp (1.05 * ((1.5 : ℝ) + 0.1 * (Real.sqrt 3 / 2))) ≤ 13.96 :=
    le_trans
      (term_le_q4 _ 1.61804 _ 1.666 phi_pos.le phi_ub.le (by nlinarith) (by norm_num)
        (by norm_num))
      (show (1.61804 : ℝ) * (1 / (1 - 1.666 / 4)) ^ 4 ≤ 13.96 by norm_num)
  have h2 : PHI ^ 2 * Real.exp (0.95 * ((0.4 : ℝ) + 0.1 * (Real.sqrt 3 / 2))) ≤ 4.28 :=
    le_trans
      (term_le_q4 _ 2.61804 _ 0.4623 (pow_nonneg phi_pos.le 2) phi2_ub (by nlinarith) (by norm_num)
        (by norm_num))
      (show (2.61804 : ℝ) * (1 / (1 - 0.4623 / 4)) ^ 4 ≤ 4.28 by norm_num)
  have h3 : PHI ^ 3 * Real.exp (0.9 * (0.7 : ℝ)) ≤ 8.41 :=
    le_trans
      (term_le_q4 _ 4.23608 _ 0.63 (pow_nonneg phi_pos.le 3) phi3_ub (by norm_num) (by norm_num)
        (by norm_num))
      (show (4.23608 : ℝ) * (1 / (1 - 0.63 / 4)) ^ 4 ≤ 8.41 by norm_num)
  have h4 : PHI ^ 4 * Real.exp (0.95 * ((0.8 : ℝ) + 0.1 * -(Real.sqrt 3 / 2))) ≤ 14.41 :=
    le_trans
      (term_le_q4 _ 6.85412 _ 0.6778 (pow_nonneg phi_pos.le 4) phi4_ub (by nlinarith) (by norm_num)
        (by norm_num))
      (show (6.85412 : ℝ) * (1 / (1 - 0.6778 / 4)) ^ 4 ≤ 14.41 by norm_num)
  have h5 : PHI ^ 5 * Real.exp (1.05 * ((0.6 : ℝ) + 0.1 * -(Real.sqrt 3 / 2))) ≤ 19.79 :=
    le_trans
      (term_le_q4 _ 11.0902 _ 0.5391 (pow_nonneg phi_pos.le 5) phi5_ub (by nlinarith) (by norm_num)
        (by norm_num))
      (show (11.0902 : ℝ) * (1 / (1 - 0.5391 / 4)) ^ 4 ≤ 19.79 by norm_num)
  linarith

/-! ### Risk classification of the two demo points -/

lemma clamp_default : defaultLanguesMetric.clamp_max = 1000000 := rfl

lemma safe_class :
    defaultLanguesMetric.risk_level (defaultLanguesMetric.compute safePoint 0 none)
      = (RiskLevel.LOW, Decision.ALLOW) := by
  rw [compute_none_eq, clamp_default]
  have hmin : min (unclampedL defaultLanguesMetric safePoint 0) (1000000 : ℝ) ≤ 27.82 :=
    le_trans (min_le_left _ _) safe_ub
  have hc : min (unclampedL defaultLanguesMetric safePoint 0) (1000000 : ℝ) < L_base * 1.5 := by
    have := L_base_lb; linarith
  unfold LanguesMetric.risk_level
  rw [if_pos hc]

lemma attack_class :
    defaultLanguesMetric.risk_level (defaultLanguesMetric.compute attackPoint 0 none)
      = (RiskLevel.MEDIUM, Decision.QUARANTINE) := by
  rw [compute_none_eq, clamp_default]
  have hmin1 : (42 : ℝ) ≤ min (unclampedL defaultLanguesMetric attackPoint 0) (1000000 : ℝ) :=
    le_min attack_lb (by norm_num)
  have hmin2 : min (unclampedL defaultLanguesMetric attackPoint 0) (1000000 : ℝ) ≤ 62 :=
    le_trans (min_le_left _ _) attack_ub
  have h1 : ¬ min (unclampedL defaultLanguesMetric attackPoint 0) (1000000 : ℝ)
      < L_base * 1.5 := by
    have := L_base_ub; push_neg; linarith
  have h2 : min (unclampedL defaultLanguesMetric attackPoint 0) (1000000 : ℝ)
      < L_base * 3.0 := by
    have := L_base_lb; linarith
  unfold LanguesMetric.risk_level
  rw [if_neg h1, if_pos h2]

/-! ### Bumping one coordinate of the verify_monotonicity base point -/

lemma to_vector_ofFun (f : Fin 6 → ℝ) : (HyperspacePoint.ofFun f).to_vector = f := by
  funext l; fin_cases l <;> rfl

lemma ofFun_to_vector (p : HyperspacePoint) : HyperspacePoint.ofFun p.to_vector = p := rfl

lemma safePoint_vec_eq_ideal :
    safePoint.to_vector = defaultLanguesMetric.ideal.to_vector := by
  funext l; fin_cases l <;> rfl

lemma dev_bump (k l : Fin 6) (d : ℝ) :
    defaultLanguesMetric.compute_deviations (bump safePoint k d) l
      = if l = k then |d| else 0 := by
  unfold LanguesMetric.compute_deviations bump
  rw [to_vector_ofFun]
  by_cases h : l = k
  · subst h
    rw [if_pos rfl, Function.update_same]
    have hv : safePoint.to_vector l = defaultLanguesMetric.ideal.to_vector l := by
      rw [safePoint_vec_eq_ideal]
    rw [hv, add_sub_cancel_left]
  · rw [if_neg h, Function.update_noteq h]
    have hv : safePoint.to_vector l = defaultLanguesMetric.ideal.to_vector l := by
      rw [safePoint_vec_eq_ideal]
    rw [hv, sub_self, abs_zero]

lemma betas_default_lb (l : Fin 6) : (0.9 : ℝ) ≤ defaultLanguesMetric.betas l := by
  show (0.9 : ℝ) ≤ 1 + 0.1 * Real.cos (TONGUE_PHASES l)
  have := Real.neg_one_le_cos (TONGUE_PHASES l)
  linarith

lemma betas_default_ub (l : Fin 6) : defaultLanguesMetric.betas l ≤ 1.1 := by
  show (1 : ℝ) + 0.1 * Real.cos (TONGUE_PHASES l) ≤ 1.1
  have := Real.cos_le_one (TONGUE_PHASES l)
  linarith

lemma unclampedL_bump_lt (k : Fin 6) (d d' : ℝ) (h0 : 0 ≤ d) (h1 : d < d') :
    unclampedL defaultLanguesMetric (bump safePoint k d) 0
      < unclampedL defaultLanguesMetric (bump safePoint k d') 0 := by
  unfold unclampedL
  apply Finset.sum_lt_sum
  · intro l _
    have hb1 := betas_default_lb l
    have hw : (0 : ℝ) ≤ TONGUE_WEIGHTS l := pow_nonneg phi_pos.le _
    apply mul_le_mul_of_nonneg_left _ hw
    apply Real.exp_le_exp.mpr
    apply mul_le_mul_of_nonneg_left _ (by linarith : (0 : ℝ) ≤ defaultLanguesMetric.betas l)
    rw [dev_bump, dev_bump]
    by_cases h : l = k
    · rw [if_pos h, if_pos h]
      have habs : |d| ≤ |d'| := by
        rw [abs_of_nonneg h0, abs_of_nonneg (by linarith)]; linarith
      linarith
    · rw [if_neg h, if_neg h]
  · refine ⟨k, Finset.mem_univ k, ?_⟩
    have hb1 := betas_default_lb k
    have hw : (0 : ℝ) < TONGUE_WEIGHTS k := pow_pos phi_pos _
    apply mul_lt_mul_of_pos_left _ hw
    apply Real.exp_lt_exp.mpr
    apply mul_lt_mul_of_pos_left _ (by linarith : (0 : ℝ) < defaultLanguesMetric.betas k)
    rw [dev_bump, dev_bump, if_pos rfl, if_pos rfl]
    have habs : |d| < |d'| := by
      rw [abs_of_nonneg h0, abs_of_nonneg (by linarith)]; exact h1
    linarith

lemma weights_ub (l : Fin 6) : TONGUE_WEIGHTS l ≤ 11.0902 := by
  have h1 : TONGUE_WEIGHTS l ≤ PHI ^ 5 := by
    apply pow_le_pow_right₀ (by linarith [phi_lb] : (1 : ℝ) ≤ PHI)
    exact Nat.lt_succ_iff.mp l.isLt
  exact le_trans h1 phi5_ub

lemma unclampedL_bump_ub (k : Fin 6) (d : ℝ) (h0 : 0 ≤ d) (h1 : d ≤ 1) :
    unclampedL defaultLanguesMetric (bump safePoint k d) 0 ≤ 300 := by
  unfold unclampedL
  have hterm : ∀ l : Fin 6,
      TONGUE_WEIGHTS l *
        Real.exp (defaultLanguesMetric.betas l *
          (defaultLanguesMetric.compute_deviations (bump safePoint k d) l +
            0.1 * Real.sin (TONGUE_FREQUENCIES l * 0 + TONGUE_PHASES l))) ≤ 50 := by
    intro l
    have hb1 := betas_default_lb l
    have hb2 := betas_default_ub l
    have hs1 := Real.neg_one_le_sin (TONGUE_FREQUENCIES l * 0 + TONGUE_PHASES l)
    have hs2 := Real.sin_le_one (TONGUE_FREQUENCIES l * 0 + TONGUE_PHASES l)
    have hdev1 : (0 : ℝ) ≤ defaultLanguesMetric.compute_deviations (bump safePoint k d) l := by
      rw [dev_bump]; by_cases h : l = k
      · rw [if_pos h]; exact abs_nonneg d
      · rw [if_neg h]
    have hdev2 : defaultLanguesMetric.compute_deviations (bump safePoint k d) l ≤ 1 := by
      rw [dev_bump]; by_cases h : l = k
      · rw [if_pos h, abs_of_nonneg h0]; exact h1
      · rw [if_neg h]; norm_num
    have harg : defaultLanguesMetric.betas l *
        (defaultLanguesMetric.compute_deviations (bump safePoint k d) l +
          0.1 * Real.sin (TONGUE_FREQUENCIES l * 0 + TONGUE_PHASES l)) ≤ 1.21 := by
      nlinarith
    refine le_trans (term_le_q4 _ 11.0902 _ 1.21 ?_ (weights_ub l) harg (by norm_num)
      (by norm_num)) ?_
    · exact pow_nonneg phi_pos.le _
    · norm_num
  calc (∑ l : Fin 6, TONGUE_WEIGHTS l *
        Real.exp (defaultLanguesMetric.betas l *
          (defaultLanguesMetric.compute_deviations (bump safePoint k d) l +
            0.1 * Real.sin (TONGUE_FREQUENCIES l * 0 + TONGUE_PHASES l))))
      ≤ ∑ _l : Fin 6, (50 : ℝ) := Finset.sum_le_sum fun l _ => hterm l
    _ = 300 := by
        rw [Finset.sum_const, Finset.card_univ]
        norm_num

lemma compute_bump_lt (k : Fin 6) (d d' : ℝ) (h0 : 0 ≤ d) (h1 : d < d') (h2 : d' ≤ 1) :
    defaultLanguesMetric.compute (bump safePoint k d) 0 none
      < defaultLanguesMetric.compute (bump safePoint k d') 0 none := by
  rw [compute_none_eq, compute_none_eq, clamp_default]
  have hlt := unclampedL_bump_lt k d d' h0 h1
  have hub := unclampedL_bump_ub k d' (by linarith) h2
  rw [min_eq_left (by linarith : unclampedL defaultLanguesMetric (bump safePoint k d) 0
      ≤ 1000000),
    min_eq_left (by linarith : unclampedL defaultLanguesMetric (bump safePoint k d') 0
      ≤ 1000000)]
  exact hlt

lemma bump_zero (k : Fin 6) : bump safePoint k 0 = safePoint := by
  unfold bump
  rw [add_zero, Function.update_eq_self]
  exact ofFun_to_vector safePoint

/-! ### The clamp plateau: large deviations saturate `compute` at `clamp_max` -/

lemma term_nonneg (m : LanguesMetric) (x : HyperspacePoint) (t : ℝ) (l : Fin 6) :
    (0 : ℝ) ≤ TONGUE_WEIGHTS l *
      Real.exp (m.betas l *
        (m.compute_deviations x l +
          0.1 * Real.sin (TONGUE_FREQUENCIES l * t + TONGUE_PHASES l))) :=
  mul_nonneg (pow_nonneg phi_pos.le _) (le_of_lt (Real.exp_pos _))

lemma unclampedL_bump_big (d : ℝ) (h28 : 28 ≤ d) :
    (1000000 : ℝ) ≤ unclampedL defaultLanguesMetric (bump safePoint 5 d) 0 := by
  have harg : (25 : ℝ) ≤ defaultLanguesMetric.betas 5 *
      (defaultLanguesMetric.compute_deviations (bump safePoint 5 d) 5 +
        0.1 * Real.sin (TONGUE_FREQUENCIES 5 * 0 + TONGUE_PHASES 5)) := by
    have hb1 := betas_default_lb 5
    have hs1 := Real.neg_one_le_sin (TONGUE_FREQUENCIES 5 * 0 + TONGUE_PHASES 5)
    have hs2 := Real.sin_le_one (TONGUE_FREQUENCIES 5 * 0 + TONGUE_PHASES 5)
    have hdev : defaultLanguesMetric.compute_deviations (bump safePoint 5 d) 5 = d := by
      rw [dev_bump, if_pos rfl, abs_of_nonneg (by linarith)]
    rw [hdev]
    have hin : (27.9 : ℝ) ≤ d + 0.1 * Real.sin (TONGUE_FREQUENCIES 5 * 0 + TONGUE_PHASES 5) := by
      linarith
    have hmul := mul_le_mul hb1 hin (by linarith) (le_trans (by norm_num) hb1)
    linarith
  have hterm : (1000000 : ℝ) ≤ TONGUE_WEIGHTS 5 *
      Real.exp (defaultLanguesMetric.betas 5 *
        (defaultLanguesMetric.compute_deviations (bump safePoint 5 d) 5 +
          0.1 * Real.sin (TONGUE_FREQUENCIES 5 * 0 + TONGUE_PHASES 5))) := by
    refine le_trans (show (1000000 : ℝ) ≤ 11.09 * (1 + 25 / 16) ^ 16 by norm_num) ?_
    exact term_ge_pow16 _ 11.09 _ 25 (by norm_num) (le_trans phi5_lb (le_of_eq W5.symm))
      harg (by norm_num)
  refine le_trans hterm ?_
  unfold unclampedL
  rw [Fin.sum_univ_six]
  have n0 := term_nonneg defaultLanguesMetric (bump safePoint 5 d) 0 0
  have n1 := term_nonneg defaultLanguesMetric (bump safePoint 5 d) 0 1
  have n2 := term_nonneg defaultLanguesMetric (bump safePoint 5 d) 0 2
  have n3 := term_nonneg defaultLanguesMetric (bump safePoint 5 d) 0 3
  have n4 := term_nonneg defaultLanguesMetric (bump safePoint 5 d) 0 4
  linarith

lemma compute_plateau (d : ℝ) (h28 : 28 ≤ d) :
    defaultLanguesMetric.compute (bump safePoint 5 d) 0 none = 1000000 := by
  rw [compute_none_eq, clamp_default]
  exact min_eq_right (unclampedL_bump_big d h28)

/-! ### The default-constructed point is strictly costlier than the ideal point -/

lemma unclampedL_dp_gt :
    unclampedL defaultLanguesMetric safePoint 0
      < unclampedL defaultLanguesMetric defaultHyperspacePoint 0 := by
  unfold unclampedL
  apply Finset.sum_lt_sum
  · intro l _
    have hb1 := betas_default_lb l
    have hw : (0 : ℝ) ≤ TONGUE_WEIGHTS l := pow_nonneg phi_pos.le _
    apply mul_le_mul_of_nonneg_left _ hw
    apply Real.exp_le_exp.mpr
    apply mul_le_mul_of_nonneg_left _ (by linarith : (0 : ℝ) ≤ defaultLanguesMetric.betas l)
    have h2 : (0 : ℝ) ≤ defaultLanguesMetric.compute_deviations defaultHyperspacePoint l :=
      abs_nonneg _
    rw [dev_safe]
    linarith
  · refine ⟨2, Finset.mem_univ 2, ?_⟩
    have hb1 := betas_default_lb 2
    have hw : (0 : ℝ) < TONGUE_WEIGHTS 2 := pow_pos phi_pos _
    apply mul_lt_mul_of_pos_left _ hw
    apply Real.exp_lt_exp.mpr
    apply mul_lt_mul_of_pos_left _ (by linarith : (0 : ℝ) < defaultLanguesMetric.betas 2)
    rw [dev_safe, dev_dp_2]
    norm_num

lemma compute_dp_gt :
    defaultLanguesMetric.compute safePoint 0 none
      < defaultLanguesMetric.compute defaultHyperspacePoint 0 none := by
  rw [compute_none_eq, compute_none_eq, clamp_default]
  rw [min_eq_left (le_trans safe_ub (by norm_num))]
  exact lt_min unclampedL_dp_gt (lt_of_le_of_lt safe_ub (by norm_num))

/-! ### Metric properties of the weighted distance -/

lemma sqrt_sum_sq_triangle (u v : Fin 6 → ℝ) :
    Real.sqrt (∑ l : Fin 6, (u l + v l) ^ 2)
      ≤ Real.sqrt (∑ l : Fin 6, u l ^ 2) + Real.sqrt (∑ l : Fin 6, v l ^ 2) := by
  have hu : (0 : ℝ) ≤ ∑ l : Fin 6, u l ^ 2 := Finset.sum_nonneg fun l _ => sq_nonneg _
  have hv : (0 : ℝ) ≤ ∑ l : Fin 6, v l ^ 2 := Finset.sum_nonneg fun l _ => sq_nonneg _
  have hcs : ∑ l : Fin 6, u l * v l
      ≤ Real.sqrt (∑ l : Fin 6, u l ^ 2) * Real.sqrt (∑ l : Fin 6, v l ^ 2) :=
    Real.sum_mul_le_sqrt_mul_sqrt _ _ _
  have hexp : ∑ l : Fin 6, (u l + v l) ^ 2
      = (∑ l : Fin 6, u l ^ 2) + 2 * (∑ l : Fin 6, u l * v l) + ∑ l : Fin 6, v l ^ 2 := by
    rw [Finset.mul_sum, ← Finset.sum_add_distrib, ← Finset.sum_add_distrib]
    exact Finset.sum_congr rfl fun l _ => by ring
  have h1 : Real.sqrt (∑ l : Fin 6, u l ^ 2) ^ 2 = ∑ l : Fin 6, u l ^ 2 := Real.sq_sqrt hu
  have h2 : Real.sqrt (∑ l : Fin 6, v l ^ 2) ^ 2 = ∑ l : Fin 6, v l ^ 2 := Real.sq_sqrt hv
  have hsq : ∑ l : Fin 6, (u l + v l) ^ 2
      ≤ (Real.sqrt (∑ l : Fin 6, u l ^ 2) + Real.sqrt (∑ l : Fin 6, v l ^ 2)) ^ 2 := by
    nlinarith [hcs, hexp, h1, h2]
  calc Real.sqrt (∑ l : Fin 6, (u l + v l) ^ 2)
      ≤ Real.sqrt ((Real.sqrt (∑ l : Fin 6, u l ^ 2)
          + Real.sqrt (∑ l : Fin 6, v l ^ 2)) ^ 2) := Real.sqrt_le_sqrt hsq
    _ = Real.sqrt (∑ l : Fin 6, u l ^ 2) + Real.sqrt (∑ l : Fin 6, v l ^ 2) :=
        Real.sqrt_sq (by positivity)

lemma weight_mul_sq (w x : ℝ) (hw : 0 ≤ w) : w * x ^ 2 = (Real.sqrt w * x) ^ 2 := by
  have h : Real.sqrt w ^ 2 = w := Real.sq_sqrt hw
  nlinarith [h]

lemma dist_triangle_langues (a b c : HyperspacePoint) (mo : Option LanguesMetric) :
    langues_distance a c mo ≤ langues_distance a b mo + langues_distance b c mo := by
  unfold langues_distance
  have key : (∑ l : Fin 6, TONGUE_WEIGHTS l * (a.to_vector l - c.to_vector l) ^ 2)
      = ∑ l : Fin 6, (Real.sqrt (TONGUE_WEIGHTS l) * (a.to_vector l - b.to_vector l)
          + Real.sqrt (TONGUE_WEIGHTS l) * (b.to_vector l - c.to_vector l)) ^ 2 := by
    refine Finset.sum_congr rfl fun l _ => ?_
    have h : Real.sqrt (TONGUE_WEIGHTS l) ^ 2 = TONGUE_WEIGHTS l :=
      Real.sq_sqrt (pow_nonneg phi_pos.le _)
    nlinarith [h]
  have keyab : (∑ l : Fin 6, TONGUE_WEIGHTS l * (a.to_vector l - b.to_vector l) ^ 2)
      = ∑ l : Fin 6, (Real.sqrt (TONGUE_WEIGHTS l) * (a.to_vector l - b.to_vector l)) ^ 2 :=
    Finset.sum_congr rfl fun l _ =>
      weight_mul_sq _ _ (pow_nonneg phi_pos.le _)
  have keybc : (∑ l : Fin 6, TONGUE_WEIGHTS l * (b.to_vector l - c.to_vector l) ^ 2)
      = ∑ l : Fin 6, (Real.sqrt (TONGUE_WEIGHTS l) * (b.to_vector l - c.to_vector l)) ^ 2 :=
    Finset.sum_congr rfl fun l _ =>
      weight_mul_sq _ _ (pow_nonneg phi_pos.le _)
  rw [key, keyab, keybc]
  exact sqrt_sum_sq_triangle _ _

lemma dist_symm_langues (a b : HyperspacePoint) (mo : Option LanguesMetric) :
    langues_distance a b mo = langues_distance b a mo := by
  unfold langues_distance
  congr 1
  exact Finset.sum_congr rfl fun l _ => by ring

lemma dist_zero_iff_langues (a b : HyperspacePoint) (mo : Option LanguesMetric) :
    langues_distance a b mo = 0 ↔ a = b := by
  unfold langues_distance
  rw [Real.sqrt_eq_zero']
  constructor
  · intro h
    have hnn : ∀ l ∈ (Finset.univ : Finset (Fin 6)),
        (0 : ℝ) ≤ TONGUE_WEIGHTS l * (a.to_vector l - b.to_vector l) ^ 2 :=
      fun l _ => mul_nonneg (pow_nonneg phi_pos.le _) (sq_nonneg _)
    have hz : (∑ l : Fin 6, TONGUE_WEIGHTS l * (a.to_vector l - b.to_vector l) ^ 2) = 0 :=
      le_antisymm h (Finset.sum_nonneg hnn)
    have hall := (Finset.sum_eq_zero_iff_of_nonneg hnn).mp hz
    have hvec : ∀ l : Fin 6, a.to_vector l = b.to_vector l := by
      intro l
      have hl := hall l (Finset.mem_univ l)
      have hw : (0 : ℝ) < TONGUE_WEIGHTS l := pow_pos phi_pos _
      have hsq : (a.to_vector l - b.to_vector l) ^ 2 = 0 := by
        rcases mul_eq_zero.mp hl with h1 | h1
        · exact absurd h1 (ne_of_gt hw)
        · exact h1
      have := pow_eq_zero_iff (n := 2) (by norm_num) |>.mp hsq
      linarith
    ext
    · exact hvec 0
    · exact hvec 1
    · exact hvec 2
    · exact hvec 3
    · exact hvec 4
    · exact hvec 5
  · intro h
    subst h
    have : (∑ l : Fin 6, TONGUE_WEIGHTS l * (a.to_vector l - a.to_vector l) ^ 2) = 0 := by
      refine Finset.sum_eq_zero fun l _ => ?_
      rw [sub_self]
      ring
    rw [this]

/-! ### The error path of math.exp: overflow before the clamp -/

lemma ite_excludedBy_none {A : Type} (tg : Tongue) (x y : A) :
    (if tg.excludedBy none then x else y) = y := rfl

lemma dev_overflow_0 : defaultLanguesMetric.compute_deviations overflowPoint 0 = 700 := by
  show |(700 : ℝ) - 0| = 700
  rw [sub_zero]; exact abs_of_nonneg (by norm_num)

lemma overflow_arg_0 :
    defaultLanguesMetric.betas 0 *
      (defaultLanguesMetric.compute_deviations overflowPoint 0 +
        0.1 * Real.sin (TONGUE_FREQUENCIES 0 * 0 + TONGUE_PHASES 0)) = 770 := by
  rw [betas_d0, dev_overflow_0,
    show TONGUE_FREQUENCIES 0 * 0 + TONGUE_PHASES 0 = TONGUE_PHASES 0 by
      rw [mul_zero, zero_add],
    sin_phase_0]
  norm_num

lemma mathExp_overflow : mathExp 770 = none := by
  unfold mathExp
  rw [if_neg (by norm_num [MATH_EXP_MAX_ARG] : ¬ ((770 : ℝ) ≤ MATH_EXP_MAX_ARG))]

lemma mathExp_of_le (x : ℝ) (h : x ≤ MATH_EXP_MAX_ARG) : mathExp x = some (Real.exp x) := by
  unfold mathExp
  rw [if_pos h]

lemma computeF_overflow : defaultLanguesMetric.computeF overflowPoint 0 none = none := by
  unfold LanguesMetric.computeF
  simp only [List.foldlM_cons, ite_excludedBy_none]
  rw [overflow_arg_0, mathExp_overflow]
  rfl

lemma safe_arg_le (l : Fin 6) :
    defaultLanguesMetric.betas l *
      (defaultLanguesMetric.compute_deviations safePoint l +
        0.1 * Real.sin (TONGUE_FREQUENCIES l * 0 + TONGUE_PHASES l))
      ≤ MATH_EXP_MAX_ARG := by
  have hb1 := betas_default_lb l
  have hb2 := betas_default_ub l
  have hs1 := Real.neg_one_le_sin (TONGUE_FREQUENCIES l * 0 + TONGUE_PHASES l)
  have hs2 := Real.sin_le_one (TONGUE_FREQUENCIES l * 0 + TONGUE_PHASES l)
  have hth : (0.11 : ℝ) ≤ MATH_EXP_MAX_ARG := by norm_num [MATH_EXP_MAX_ARG]
  rw [dev_safe]
  nlinarith

lemma computeF_safePoint :
    defaultLanguesMetric.computeF safePoint 0 none
      = some (defaultLanguesMetric.compute safePoint 0 none) := by
  unfold LanguesMetric.computeF
  simp only [List.foldlM_cons, List.foldlM_nil, ite_excludedBy_none,
    mathExp_of_le _ (safe_arg_le 0), mathExp_of_le _ (safe_arg_le 1),
    mathExp_of_le _ (safe_arg_le 2), mathExp_of_le _ (safe_arg_le 3),
    mathExp_of_le _ (safe_arg_le 4), mathExp_of_le _ (safe_arg_le 5),
    Option.map_some', Option.bind_eq_bind, Option.some_bind, Option.pure_def]
  rw [compute_none_eq]
  congr 1
  unfold unclampedL
  rw [Fin.sum_univ_six, zero_add]

/-! ### Claim theorems -/

/-- C1: for every `HyperspacePoint` x, real t, and optional tongue set,
`LanguesMetric.compute(x, t, active_tongues)` equals the sum over the non-excluded
dimensions l of `TONGUE_WEIGHTS[l] * exp(betas[l] * (|x[l] - ideal[l]| +
0.1 * sin(TONGUE_FREQUENCIES[l]*t + TONGUE_PHASES[l])))`, clamped above by `clamp_max`,
where `betas[l] = beta_base + 0.1*cos(TONGUE_PHASES[l])` is fixed at construction. -/
theorem C1_compute_matches_spec_formula (m : LanguesMetric) (x : HyperspacePoint) (t : ℝ)
    (active_tongues : Option (List Tongue)) :
    m.compute x t active_tongues = computeSpec m x t active_tongues ∧
    ∀ l : Fin 6, m.betas l = m.beta_base + 0.1 * Real.cos (TONGUE_PHASES l) := by
  constructor
  · unfold LanguesMetric.compute computeSpec
    congr 1
    rw [Finset.sum_filter]
    refine Finset.sum_congr rfl fun l _ => ?_
    by_cases h : (TONGUES l).excludedBy active_tongues
    · rw [if_pos h, if_neg (fun hn => hn h)]
    · rw [if_neg h, if_pos h]; rfl
  · intro l; rfl

/-- C1 witness: the formula identity evaluated at the default metric, the demo safe
point, t = 0 and no tongue filter. -/
theorem C1_compute_matches_spec_formula_witness :
    defaultLanguesMetric.compute safePoint 0 none = computeSpec defaultLanguesMetric
      safePoint 0 none :=
  (C1_compute_matches_spec_formula defaultLanguesMetric safePoint 0 none).1

/-- C2 counterexample: with the default metric, the attack demo point
(`intent=1.5, policy=0.1, trust=0.2, risk=0.9, entropy=0.8, time=0`) does NOT classify
as (CRITICAL, DENY) at t = 0 — its L is about 54, far below `10 * L_base ≈ 274`. -/
theorem C2_counterexample_attack_not_critical :
    defaultLanguesMetric.risk_level (defaultLanguesMetric.compute attackPoint 0 none)
      ≠ (RiskLevel.CRITICAL, Decision.DENY) := by
  rw [attack_class]
  decide

/-- C2 (amended): with the default metric at t = 0, the ideal-state point classifies
as (LOW, ALLOW), and the attack point classifies as (MEDIUM, QUARANTINE) — not
(CRITICAL, DENY) as the spec claims, because `L_base = Σ weight ≈ 27.42` (not 12.09),
so the DENY threshold `10·L_base ≈ 274` far exceeds the attack point's L ≈ 54. -/
theorem C2_amended_risk_banding :
    defaultLanguesMetric.risk_level (defaultLanguesMetric.compute safePoint 0 none)
        = (RiskLevel.LOW, Decision.ALLOW) ∧
    defaultLanguesMetric.risk_level (defaultLanguesMetric.compute attackPoint 0 none)
        = (RiskLevel.MEDIUM, Decision.QUARANTINE) :=
  ⟨safe_class, attack_class⟩

/-- Value bounds for the claim's second half: for a nonnegative clamp (the default is
1e6), whenever `compute` does return a value, that value lies in `[0, clamp_max]`. -/
theorem compute_value_in_range (m : LanguesMetric) (x : HyperspacePoint) (t : ℝ)
    (active_tongues : Option (List Tongue)) (hclamp : 0 ≤ m.clamp_max) :
    0 ≤ m.compute x t active_tongues ∧ m.compute x t active_tongues ≤ m.clamp_max := by
  unfold LanguesMetric.compute
  refine ⟨le_min ?_ hclamp, min_le_right _ _⟩
  refine Finset.sum_nonneg fun l _ => ?_
  by_cases h : (TONGUES l).excludedBy active_tongues
  · rw [if_pos h]
  · rw [if_neg h]; exact term_nonneg m x t l

/-- C3 (code bug): the claim that compute never raises, with exponential overflow
absorbed by the final clamp, is the documented intent (the source comments the clamp
with "for numerical stability"), but the code evaluates `math.exp` BEFORE the clamp
line: at the failing input `HyperspacePoint(time=700)` (all other coordinates at the
ideal value), default metric, t = 0, the dimension-0 exponent argument is exactly
`1.1 * 700 = 770`, beyond `math.exp`'s domain bound of about 709.78, so the Python
raises `OverflowError` before any clamping — modelled here by `computeF` returning
`none`.  The value bounds hold whenever compute returns (`compute_value_in_range`). -/
theorem C3_overflow_raises_before_clamp :
    defaultLanguesMetric.betas 0 *
        (defaultLanguesMetric.compute_deviations overflowPoint 0 +
          0.1 * Real.sin (TONGUE_FREQUENCIES 0 * 0 + TONGUE_PHASES 0)) = 770 ∧
    MATH_EXP_MAX_ARG < 770 ∧
    defaultLanguesMetric.computeF overflowPoint 0 none = none :=
  ⟨overflow_arg_0, by norm_num [MATH_EXP_MAX_ARG], computeF_overflow⟩

/-- C4: `risk_level(L)` is the deterministic four-band classification against
`L_base = Σ TONGUE_WEIGHTS`: (LOW, ALLOW) iff `L < 1.5*L_base`; (MEDIUM, QUARANTINE)
iff `1.5*L_base ≤ L < 3*L_base`; (HIGH, REVIEW) iff `3*L_base ≤ L < 10*L_base`;
(CRITICAL, DENY) iff `L ≥ 10*L_base`; boundary values fall into the higher band. -/
theorem C4_risk_level_bands (m : LanguesMetric) (L : ℝ) :
    (m.risk_level L = (RiskLevel.LOW, Decision.ALLOW) ↔ L < 1.5 * L_base) ∧
    (m.risk_level L = (RiskLevel.MEDIUM, Decision.QUARANTINE) ↔
      1.5 * L_base ≤ L ∧ L < 3 * L_base) ∧
    (m.risk_level L = (RiskLevel.HIGH, Decision.REVIEW) ↔
      3 * L_base ≤ L ∧ L < 10 * L_base) ∧
    (m.risk_level L = (RiskLevel.CRITICAL, Decision.DENY) ↔ 10 * L_base ≤ L) ∧
    L_base = ∑ l : Fin 6, TONGUE_WEIGHTS l := by
  have hLb := L_base_lb
  unfold LanguesMetric.risk_level
  split_ifs with h1 h2 h3
  · exact ⟨iff_of_true rfl (by linarith),
      iff_of_false (by decide) (fun hc => by linarith [hc.1]),
      iff_of_false (by decide) (fun hc => by linarith [hc.1]),
      iff_of_false (by decide) (fun hc => by linarith), rfl⟩
  · push_neg at h1
    exact ⟨iff_of_false (by decide) (fun hc => by linarith),
      iff_of_true rfl ⟨by linarith, by linarith⟩,
      iff_of_false (by decide) (fun hc => by linarith [hc.1]),
      iff_of_false (by decide) (fun hc => by linarith), rfl⟩
  · push_neg at h1 h2
    exact ⟨iff_of_false (by decide) (fun hc => by linarith),
      iff_of_false (by decide) (fun hc => by linarith [hc.2]),
      iff_of_true rfl ⟨by linarith, by linarith⟩,
      iff_of_false (by decide) (fun hc => by linarith), rfl⟩
  · push_neg at h1 h2 h3
    exact ⟨iff_of_false (by decide) (fun hc => by linarith),
      iff_of_false (by decide) (fun hc => by linarith [hc.2]),
      iff_of_false (by decide) (fun hc => by linarith [hc.2]),
      iff_of_true rfl (by linarith), rfl⟩

/-- C4 witness: the band classification evaluated at L = 0 for the default metric. -/
theorem C4_risk_level_bands_witness :
    defaultLanguesMetric.risk_level 0 = (RiskLevel.LOW, Decision.ALLOW) ↔
      (0 : ℝ) < 1.5 * L_base :=
  (C4_risk_level_bands defaultLanguesMetric 0).1

/-- C5: `compute_gradient(x, t)` returns a 6-element vector whose l-th entry is
`weight[l] * beta[l] * exp(beta[l] * shifted_d_l) * sign(x[l] - ideal[l])`, the sign
being +1 when `x[l] >= ideal[l]` and -1 otherwise; all 6 dimensions are evaluated
(no tongue filtering) and no clamping is applied. -/
theorem C5_gradient_formula (m : LanguesMetric) (x : HyperspacePoint) (t : ℝ) :
    (m.compute_gradient x t).length = 6 ∧
    ∀ l : Fin 6, (m.compute_gradient x t)[(l.val : ℕ)]? = some (gradientSpec m x t l) := by
  constructor
  · exact List.length_ofFn _
  · intro l
    unfold LanguesMetric.compute_gradient
    rw [List.getElem?_ofFn]
    unfold List.ofFnNthVal
    rw [dif_pos l.isLt]
    rfl

/-- C5 witness: the gradient of the default metric at the attack point and t = 0 has
length 6 and its first entry matches the claimed formula. -/
theorem C5_gradient_formula_witness :
    (defaultLanguesMetric.compute_gradient attackPoint 0).length = 6 ∧
    (defaultLanguesMetric.compute_gradient attackPoint 0)[(0 : ℕ)]?
      = some (gradientSpec defaultLanguesMetric attackPoint 0 0) :=
  ⟨(C5_gradient_formula defaultLanguesMetric attackPoint 0).1,
    (C5_gradient_formula defaultLanguesMetric attackPoint 0).2 0⟩

/-- C6 counterexample: compute is NOT strictly increasing in a single dimension's
deviation over the whole range, because of the clamp: with all other dimensions at the
ideal value, entropy deviations 30 and 31 both clamp to `clamp_max = 1e6`, so the value
does not strictly increase. -/
theorem C6_counterexample_clamp_plateau :
    defaultLanguesMetric.compute_deviations (bump safePoint 5 30) 5 = 30 ∧
    defaultLanguesMetric.compute_deviations (bump safePoint 5 31) 5 = 31 ∧
    defaultLanguesMetric.compute_deviations (bump safePoint 5 30) 0 = 0 ∧
    defaultLanguesMetric.compute_deviations (bump safePoint 5 30) 1 = 0 ∧
    defaultLanguesMetric.compute_deviations (bump safePoint 5 30) 2 = 0 ∧
    defaultLanguesMetric.compute_deviations (bump safePoint 5 30) 3 = 0 ∧
    defaultLanguesMetric.compute_deviations (bump safePoint 5 30) 4 = 0 ∧
    defaultLanguesMetric.compute (bump safePoint 5 30) 0 none
      = defaultLanguesMetric.compute (bump safePoint 5 31) 0 none := by
  refine ⟨?_, ?_, ?_, ?_, ?_, ?_, ?_, ?_⟩
  · rw [dev_bump, if_pos rfl]; exact abs_of_nonneg (by norm_num)
  · rw [dev_bump, if_pos rfl]; exact abs_of_nonneg (by norm_num)
  · rw [dev_bump, if_neg (by decide)]
  · rw [dev_bump, if_neg (by decide)]
  · rw [dev_bump, if_neg (by decide)]
  · rw [dev_bump, if_neg (by decide)]
  · rw [dev_bump, if_neg (by decide)]
  · rw [compute_plateau 30 (by norm_num), compute_plateau 31 (by norm_num)]

/-- C6 (amended): at t = 0, holding every other dimension at its ideal value, compute is
strictly increasing in a dimension's deviation whenever the larger point's unclamped sum
is still at most `clamp_max` (it plateaus at `clamp_max` beyond that); in particular, over the
deviation sequence used by `verify_monotonicity` (0, then deltas 0.1, 0.2, 0.3, 0.5, 1.0
applied to a fresh copy of the ideal vector) each successive compute value strictly
exceeds the previous one, so `verify_monotonicity()` returns true. -/
theorem C6_amended_verify_monotonicity :
    (∀ (dim : Fin 6) (d d' : ℝ), 0 ≤ d → d < d' →
      unclampedL defaultLanguesMetric (bump safePoint dim d') 0
          ≤ defaultLanguesMetric.clamp_max →
      defaultLanguesMetric.compute (bump safePoint dim d) 0 none
        < defaultLanguesMetric.compute (bump safePoint dim d') 0 none) ∧
    verify_monotonicity := by
  constructor
  · intro dim d d' h0 h1 hcl
    rw [compute_none_eq, compute_none_eq]
    have hlt := unclampedL_bump_lt dim d d' h0 h1
    rw [min_eq_left (le_of_lt (lt_of_lt_of_le hlt hcl)), min_eq_left hcl]
    exact hlt
  · intro dim
    have h1 : defaultLanguesMetric.compute safePoint 0 none
        < defaultLanguesMetric.compute (bump safePoint dim 0.1) 0 none := by
      have h := compute_bump_lt dim 0 0.1 le_rfl (by norm_num) (by norm_num)
      rwa [bump_zero] at h
    exact ⟨h1,
      compute_bump_lt dim 0.1 0.2 (by norm_num) (by norm_num) (by norm_num),
      compute_bump_lt dim 0.2 0.3 (by norm_num) (by norm_num) (by norm_num),
      compute_bump_lt dim 0.3 0.5 (by norm_num) (by norm_num) (by norm_num),
      compute_bump_lt dim 0.5 1.0 (by norm_num) (by norm_num) (by norm_num)⟩

/-- C6 witness: the below-clamp strict increase instantiated at the time dimension,
deviations 0 and 1, with the clamp hypothesis discharged concretely. -/
theorem C6_amended_witness :
    unclampedL defaultLanguesMetric (bump safePoint 0 1) 0
        ≤ defaultLanguesMetric.clamp_max ∧
    defaultLanguesMetric.compute (bump safePoint 0 0) 0 none
      < defaultLanguesMetric.compute (bump safePoint 0 1) 0 none := by
  have hcl : unclampedL defaultLanguesMetric (bump safePoint 0 1) 0
      ≤ defaultLanguesMetric.clamp_max :=
    le_trans (unclampedL_bump_ub 0 1 (by norm_num) (by norm_num))
      (by rw [clamp_default]; norm_num)
  exact ⟨hcl, C6_amended_verify_monotonicity.1 0 0 1 le_rfl (by norm_num) hcl⟩

/-- C7: `langues_distance` is a weighted Euclidean metric: symmetric, zero exactly when
all 6 corresponding fields agree, and satisfying the triangle inequality. -/
theorem C7_distance_metric_properties (a b c : HyperspacePoint)
    (mo : Option LanguesMetric) :
    langues_distance a b mo = langues_distance b a mo ∧
    (langues_distance a b mo = 0 ↔
      (a.time = b.time ∧ a.intent = b.intent ∧ a.policy = b.policy ∧
        a.trust = b.trust ∧ a.risk = b.risk ∧ a.entropy = b.entropy)) ∧
    langues_distance a c mo ≤ langues_distance a b mo + langues_distance b c mo := by
  refine ⟨dist_symm_langues a b mo, ?_, dist_triangle_langues a b c mo⟩
  rw [dist_zero_iff_langues]
  constructor
  · intro h
    exact ⟨by rw [h], by rw [h], by rw [h], by rw [h], by rw [h], by rw [h]⟩
  · rintro ⟨h1, h2, h3, h4, h5, h6⟩
    ext <;> assumption

/-- C7 witness: the metric properties instantiated at three concrete points. -/
theorem C7_distance_metric_properties_witness :
    langues_distance safePoint attackPoint none
        = langues_distance attackPoint safePoint none ∧
    (langues_distance safePoint attackPoint none = 0 ↔
      (safePoint.time = attackPoint.time ∧ safePoint.intent = attackPoint.intent ∧
        safePoint.policy = attackPoint.policy ∧ safePoint.trust = attackPoint.trust ∧
        safePoint.risk = attackPoint.risk ∧ safePoint.entropy = attackPoint.entropy)) ∧
    langues_distance safePoint defaultHyperspacePoint none
      ≤ langues_distance safePoint attackPoint none
        + langues_distance attackPoint defaultHyperspacePoint none :=
  C7_distance_metric_properties safePoint attackPoint defaultHyperspacePoint none

/-- C8 counterexample: `from_vector` does NOT fail on every vector whose length is not 6:
a 7-element vector is accepted (the extra element is silently ignored). -/
theorem C8_counterexample_length_seven_succeeds :
    (HyperspacePoint.from_vector [0, 0, 0, 0, 0, 0, 0]).isSome = true ∧
    ([0, 0, 0, 0, 0, 0, 0] : List ℝ).length ≠ 6 := by
  constructor
  · rfl
  · simp

/-- C8 (amended): `from_vector` fails (raises `IndexError`, modelled as `none`) exactly
for vectors with fewer than 6 elements, and succeeds for every vector with at least 6
elements, silently ignoring any extra elements; no length-6 validation is performed. -/
theorem C8_amended_from_vector_succeeds_iff_length_ge_six (v : List ℝ) :
    (HyperspacePoint.from_vector v).isSome = true ↔ 6 ≤ v.length := by
  rcases v with _ | ⟨a, _ | ⟨b, _ | ⟨c, _ | ⟨d, _ | ⟨e, _ | ⟨f, rest⟩⟩⟩⟩⟩⟩ <;>
    simp [HyperspacePoint.from_vector]

/-- C8 witness: an exactly-length-6 vector succeeds. -/
theorem C8_amended_witness :
    (HyperspacePoint.from_vector [1, 2, 3, 4, 5, 6]).isSome = true ↔
      6 ≤ ([1, 2, 3, 4, 5, 6] : List ℝ).length :=
  C8_amended_from_vector_succeeds_iff_length_ge_six [1, 2, 3, 4, 5, 6]

/-- C9: passing an empty list as `active_tongues` behaves exactly like omitting the
argument (the empty Python list is falsy, so nothing is skipped and the result is not 0). -/
theorem C9_empty_tongues_like_none (m : LanguesMetric) (x : HyperspacePoint) (t : ℝ) :
    m.compute x t (some []) = m.compute x t none := by
  rw [compute_some_empty_eq, compute_none_eq]

/-- C9 witness: the equality at the default metric, attack point and t = 0. -/
theorem C9_empty_tongues_like_none_witness :
    defaultLanguesMetric.compute attackPoint 0 (some [])
      = defaultLanguesMetric.compute attackPoint 0 none :=
  C9_empty_tongues_like_none defaultLanguesMetric attackPoint 0

/-- C10: a default-constructed `HyperspacePoint` is not the ideal state: its policy,
trust and entropy defaults differ from the default `IdealState`, its deviation vector is
(0, 0, 0.5, 0.1, 0, 0.1), and with the default metric its compute at t = 0 strictly
exceeds that of the ideal-state point. -/
theorem C10_default_point_not_ideal :
    (defaultHyperspacePoint.policy ≠ defaultIdealState.policy ∧
      defaultHyperspacePoint.trust ≠ defaultIdealState.trust ∧
      defaultHyperspacePoint.entropy ≠ defaultIdealState.entropy) ∧
    (defaultLanguesMetric.compute_deviations defaultHyperspacePoint 0 = 0 ∧
      defaultLanguesMetric.compute_deviations defaultHyperspacePoint 1 = 0 ∧
      defaultLanguesMetric.compute_deviations defaultHyperspacePoint 2 = 0.5 ∧
      defaultLanguesMetric.compute_deviations defaultHyperspacePoint 3 = 0.1 ∧
      defaultLanguesMetric.compute_deviations defaultHyperspacePoint 4 = 0 ∧
      defaultLanguesMetric.compute_deviations defaultHyperspacePoint 5 = 0.1) ∧
    defaultLanguesMetric.compute safePoint 0 none
      < defaultLanguesMetric.compute defaultHyperspacePoint 0 none := by
  refine ⟨⟨?_, ?_, ?_⟩, ⟨dev_dp_0, dev_dp_1, dev_dp_2, dev_dp_3, dev_dp_4, dev_dp_5⟩,
    compute_dp_gt⟩
  · show (0 : ℝ) ≠ 0.5; norm_num
  · show (0.8 : ℝ) ≠ 0.9; norm_num
  · show (0.1 : ℝ) ≠ 0.2; norm_num
